import Mathlib

/-!
Shallow embedding of the oscilloscope driver in `src/oscilloscope/driver.py`
(class `OscilloscopeDriver`) together with the data model of
`src/oscilloscope/models.py` and the command catalog of
`src/oscilloscope/commands.py`.

Modelling conventions:

* Python `float` values are modelled as exact rationals (`ℚ`); every string
  that the driver actually parses denotes a dyadic-exact decimal, so no
  rounding behaviour is observable on the inputs of interest.  The one value
  the driver produces with `np.sqrt` is represented symbolically by the
  constructor `PyFloatVal.sqrtv`, whose real-number meaning is
  `PyFloatVal.toReal`.
* Python strings are modelled by `String`; all computations are performed on
  the underlying character list with structural recursion so that concrete
  instances reduce inside the kernel.
* The PyVISA transport is modelled by an environment `Env` mapping each
  command to a reply or a failure flag, plus the raw bytes returned by
  `read_raw`.  The mutable driver state (`_connected`, `_instrument`, `_rm`,
  and the instrument's `timeout` attribute) is the record `DriverState`.
* Each driver operation returns its final state, the list of transport
  interactions it performed (`Event`), and either a value or the Python
  exception it raised (`Except PyExc`).  Python's `try/except/finally`
  control flow is translated branch by branch.
* `pyvisa`'s `Resource.close` swallows `InvalidSession`, so `disconnect`'s
  close calls are modelled as non-raising; but `close()` invalidates the
  session, and a later attribute access on the retained handle (such as the
  `self._instrument.timeout` reads of the capture operations) raises
  `InvalidSession` — tracked by the `instClosed` flag of `DriverState`.
  `int(...)`/`float(...)` are modelled on the digit/decimal forms that
  occur (underscores, `inf`, `nan` are not modelled — no reply in this
  driver produces them).
-/

namespace ScopeDriver

/-! ## Character-level string helpers (models of the Python string methods) -/

/-- Model of Python `str.strip()` on a character list (ASCII whitespace). -/
def trimChars (cs : List Char) : List Char :=
  ((cs.dropWhile Char.isWhitespace).reverse.dropWhile Char.isWhitespace).reverse

/-- Model of Python `str.strip()` on a `String`. -/
def strTrim (s : String) : String := String.mk (trimChars s.data)

/-- Does `cs` start with the pattern `pat`? -/
def charsStartsWith : List Char → List Char → Bool
  | [], _ => true
  | _ :: _, [] => false
  | p :: ps, c :: cs => p = c && charsStartsWith ps cs

/-- Does `cs` end with the suffix `suf` (model of `str.endswith`)? -/
def charsEndsWith (cs suf : List Char) : Bool :=
  charsStartsWith suf.reverse cs.reverse

/-- Model of Python slicing `s[:-n]` (`value_str[:-3]` etc.). -/
def dropRightChars (cs : List Char) (n : ℕ) : List Char := cs.take (cs.length - n)

/-- Split `cs` at the first occurrence of `pat`, returning the part before
and the part after the pattern; `none` when `pat` does not occur. -/
def splitAtPat (pat : List Char) : List Char → Option (List Char × List Char)
  | [] => if pat.isEmpty then some ([], []) else none
  | c :: cs =>
    if charsStartsWith pat (c :: cs) then some ([], (c :: cs).drop pat.length)
    else (splitAtPat pat cs).map (fun p => (c :: p.1, p.2))

/-- Model of the Python containment test `pat in s` for strings. -/
def containsSub (pat s : String) : Bool := (splitAtPat pat.data s.data).isSome

/-- Model of `s.split(',')[1]`: the text between the first and the second
comma (to the end when there is no second comma).  Only used when `s`
contains a comma, in which case no `IndexError` can occur. -/
def pyCommaSecond (cs : List Char) : List Char :=
  match splitAtPat [','] cs with
  | none => cs
  | some p =>
    match splitAtPat [','] p.2 with
    | none => p.2
    | some q => q.1

/-- Accumulator worker for whitespace splitting. -/
def wsTokensAux : List Char → List Char → List (List Char)
  | [], acc => if acc.isEmpty then [] else [acc.reverse]
  | c :: cs, acc =>
    if c.isWhitespace then
      if acc.isEmpty then wsTokensAux cs [] else acc.reverse :: wsTokensAux cs []
    else wsTokensAux cs (c :: acc)

/-- Model of Python `str.split()` (split on whitespace runs, dropping empty
tokens). -/
def pySplitWS (s : String) : List String := (wsTokensAux s.data []).map String.mk

/-- Accumulator worker for single-character splitting. -/
def splitOnCharAux (sep : Char) : List Char → List Char → List (List Char)
  | [], acc => [acc.reverse]
  | c :: cs, acc =>
    if c = sep then acc.reverse :: splitOnCharAux sep cs []
    else splitOnCharAux sep cs (c :: acc)

/-- Model of Python `str.split(sep)` for a one-character separator (keeps
empty parts, always returns at least one part). -/
def pySplitChar (sep : Char) (s : String) : List String :=
  (splitOnCharAux sep s.data []).map String.mk

/-! ## Model of Python numeric conversions -/

/-- Numeric value of a list of decimal digit characters. -/
def digitsVal (cs : List Char) : ℕ :=
  cs.foldl (fun a c => 10 * a + (c.toNat - 48)) 0

/-- Split a character list into its leading run of decimal digits and the
rest. -/
def readDigits : List Char → List Char × List Char
  | [] => ([], [])
  | c :: cs =>
    if c.isDigit then
      let p := readDigits cs
      (c :: p.1, p.2)
    else ([], c :: cs)

/-- Read an optional leading sign. -/
def readSign : List Char → ℤ × List Char
  | '+' :: cs => (1, cs)
  | '-' :: cs => (-1, cs)
  | cs => (1, cs)

/-- Parse an unsigned decimal mantissa `digits[.digits]` (at least one digit
overall), exactly as `float` accepts it. -/
def parseUnsignedDec (cs : List Char) : Option ℚ :=
  let p := readDigits cs
  match p.2 with
  | [] => if p.1.isEmpty then none else some ((digitsVal p.1 : ℚ))
  | '.' :: r2 =>
    let q := readDigits r2
    if q.2.isEmpty && !(p.1.isEmpty && q.1.isEmpty) then
      some ((digitsVal (p.1 ++ q.1) : ℚ) / (10 : ℚ) ^ q.1.length)
    else none
  | _ => none

/-- Parse the signed integer exponent part after `E`/`e`. -/
def parseExpPart (cs : List Char) : Option ℤ :=
  let p := readSign cs
  let q := readDigits p.2
  if q.2.isEmpty && !q.1.isEmpty then some (p.1 * (digitsVal q.1 : ℤ)) else none

/-- Split at the first `E`/`e` (exponent marker). -/
def splitExp : List Char → List Char × Option (List Char)
  | [] => ([], none)
  | c :: cs =>
    if c = 'E' || c = 'e' then ([], some cs)
    else
      let p := splitExp cs
      (c :: p.1, p.2)

/-- Model of Python `float(s)` on the decimal/scientific forms produced by
the instrument; `none` models a raised `ValueError`. -/
def pyFloat (s : String) : Option ℚ :=
  let cs := trimChars s.data
  let sg := readSign cs
  let me := splitExp sg.2
  match parseUnsignedDec me.1 with
  | none => none
  | some m =>
    match me.2 with
    | none => some ((sg.1 : ℚ) * m)
    | some ec =>
      match parseExpPart ec with
      | none => none
      | some e => some ((sg.1 : ℚ) * m * (10 : ℚ) ^ e)

/-- Model of Python `int(bs)` on an ASCII byte string: defined exactly on
nonempty all-digit strings (the only shapes a well-formed block header can
take); `none` models a raised `ValueError`. -/
def pyIntOfDigits (bs : List ℕ) : Option ℕ :=
  if !bs.isEmpty && bs.all (fun b => 48 ≤ b && b ≤ 57) then
    some (bs.foldl (fun a b => 10 * a + (b - 48)) 0)
  else none

/-! ## `_parse_measurement` (driver.py lines 330–378) -/

/-- Model of `OscilloscopeDriver._parse_measurement`: comma-prefix removal,
strip + uppercase, frequency-unit suffixes (`GHZ`/`MHZ`/`KHZ`/`HZ`), the
unit letters `V`/`S`, then the single-letter SI suffixes `G`/`M`/`K`/`U`/`N`,
finally `float` conversion times the accumulated multiplier.  `none` models
the `except (ValueError, IndexError): return None` path. -/
def parseMeasurement (s : String) : Option ℚ :=
  let cs0 := s.data
  let cs1 := if cs0.contains ',' then pyCommaSecond cs0 else cs0
  let v0 := (trimChars cs1).map Char.toUpper
  let p1 : List Char × ℚ :=
    if charsEndsWith v0 "GHZ".data then (dropRightChars v0 3, 1000000000)
    else if charsEndsWith v0 "MHZ".data then (dropRightChars v0 3, 1000000)
    else if charsEndsWith v0 "KHZ".data then (dropRightChars v0 3, 1000)
    else if charsEndsWith v0 "HZ".data then (dropRightChars v0 2, 1)
    else if charsEndsWith v0 "V".data then (dropRightChars v0 1, 1)
    else if charsEndsWith v0 "S".data then (dropRightChars v0 1, 1)
    else (v0, 1)
  let p2 : List Char × ℚ :=
    if charsEndsWith p1.1 "G".data then (dropRightChars p1.1 1, p1.2 * 1000000000)
    else if charsEndsWith p1.1 "M".data then (dropRightChars p1.1 1, p1.2 * 1000000)
    else if charsEndsWith p1.1 "K".data then (dropRightChars p1.1 1, p1.2 * 1000)
    else if charsEndsWith p1.1 "U".data then (dropRightChars p1.1 1, p1.2 * (1 / 1000000))
    else if charsEndsWith p1.1 "N".data then (dropRightChars p1.1 1, p1.2 * (1 / 1000000000))
    else (p1.1, p1.2)
  (pyFloat (String.mk p2.1)).map (fun x => x * p2.2)

/-! ## Driver state, transport environment, events, exceptions -/

/-- The Python exceptions that the driver can raise.  `OscilloscopeError`
carries its message; `attrError` models the `AttributeError` raised by
`None.timeout` when `self._instrument is None`; `invalidSession` models
`pyvisa.errors.InvalidSession`, raised by any attribute access on a
resource whose session was closed by `disconnect`. -/
inductive PyExc where
  | oscError (msg : String)
  | attrError
  | invalidSession
deriving DecidableEq, Repr

/-- One interaction with the PyVISA transport (or, for `setConnectedEv`, the
driver's own connected-flag assignment, recorded to express ordering). -/
inductive Event where
  | writeEv (cmd : String)
  | queryEv (cmd : String)
  | readRawEv
  | setTimeoutEv (t : ℕ)
  | setConnectedEv (b : Bool)
  | closeInstrumentEv
  | closeRmEv
deriving DecidableEq, Repr

/-- The driver's mutable state: `_connected`, whether `_instrument` /
`_rm` are set (non-`None`), whether the instrument's pyvisa session has
been invalidated by `close()` (after which any attribute access on the
handle raises `InvalidSession`), and the instrument's `timeout`
attribute. -/
structure DriverState where
  connected : Bool
  hasInstrument : Bool
  hasRm : Bool
  instClosed : Bool
  timeout : ℕ
deriving DecidableEq, Repr

/-- The instrument/transport environment: whether `open_resource` fails,
which writes/queries/raw reads fail, the (un-stripped) textual reply to each
query, and the bytes produced by `read_raw`. -/
structure Env where
  openFails : Bool
  writeFailsOn : String → Bool
  queryFailsOn : String → Bool
  readRawFails : Bool
  queryReply : String → String
  rawData : List ℕ

/-- Result of one driver operation: final state, transport trace, and the
returned value or raised exception. -/
structure Res (α : Type) where
  state : DriverState
  events : List Event
  result : Except PyExc α

deriving instance DecidableEq for Except

/-- The message of the not-connected `OscilloscopeError`. -/
def notConnectedMsg : String := "Not connected to oscilloscope"

/-! ## Primitive transport operations (driver.py lines 95–126)

`write`, `query` and `read_raw` never mutate driver state, so they return
only their trace and outcome. -/

/-- Model of `OscilloscopeDriver.write`. -/
def writeOp (env : Env) (s : DriverState) (cmd : String) :
    List Event × Except PyExc Unit :=
  if s.connected && s.hasInstrument then
    if env.writeFailsOn cmd then ([.writeEv cmd], .error (.oscError "Write failed"))
    else ([.writeEv cmd], .ok ())
  else ([], .error (.oscError notConnectedMsg))

/-- Model of `OscilloscopeDriver.query` (the reply is `.strip()`-ped). -/
def queryOp (env : Env) (s : DriverState) (cmd : String) :
    List Event × Except PyExc String :=
  if s.connected && s.hasInstrument then
    if env.queryFailsOn cmd then ([.queryEv cmd], .error (.oscError "Query failed"))
    else ([.queryEv cmd], .ok (strTrim (env.queryReply cmd)))
  else ([], .error (.oscError notConnectedMsg))

/-- Model of `OscilloscopeDriver.read_raw`. -/
def readRawOp (env : Env) (s : DriverState) :
    List Event × Except PyExc (List ℕ) :=
  if s.connected && s.hasInstrument then
    if env.readRawFails then ([.readRawEv], .error (.oscError "Read raw failed"))
    else ([.readRawEv], .ok env.rawData)
  else ([], .error (.oscError notConnectedMsg))

/-! ## Connection lifecycle (driver.py lines 60–93) -/

/-- Model of `OscilloscopeDriver.connect` (`driverTimeout` is `self.timeout`):
open the resource manager and resource, set the instrument timeout, set the
connected flag, then verify with an `*IDN?` query; on any failure the flag
is reset to `false` and an `OscilloscopeError` is raised. -/
def connectOp (env : Env) (s : DriverState) (driverTimeout : ℕ) : Res Unit :=
  let s1 : DriverState := { s with hasRm := true }
  if env.openFails then
    { state := { s1 with connected := false }, events := [],
      result := .error (.oscError "Connection failed") }
  else
    let s2 : DriverState :=
      { s1 with hasInstrument := true, instClosed := false, timeout := driverTimeout }
    let s3 : DriverState := { s2 with connected := true }
    let q := queryOp env s3 "*IDN?"
    let evs := [Event.setTimeoutEv driverTimeout, Event.setConnectedEv true] ++ q.1
    match q.2 with
    | .ok _ => { state := s3, events := evs, result := .ok () }
    | .error _ =>
      { state := { s3 with connected := false }, events := evs,
        result := .error (.oscError "Connection failed") }

/-- Model of `OscilloscopeDriver.disconnect`: close the instrument and the
resource manager when present, clear the connected flag.  `pyvisa`'s
`close()` swallows `InvalidSession`, so closing never raises — but it
invalidates the instrument's session (`instClosed`), after which attribute
access on the retained handle raises `InvalidSession`. -/
def disconnectOp (s : DriverState) : Res Unit :=
  { state := { s with connected := false, instClosed := s.instClosed || s.hasInstrument },
    events := (if s.hasInstrument then [Event.closeInstrumentEv] else []) ++
              (if s.hasRm then [Event.closeRmEv] else []),
    result := .ok () }

/-! ## Screen capture (driver.py lines 380–410) -/

/-- Model of `OscilloscopeDriver.capture_screen`.  Reading
`self._instrument.timeout` (driver.py line 392, before the `try`) with
`_instrument = None` raises `AttributeError`, and on a handle whose
session was closed by `disconnect` it raises pyvisa's `InvalidSession` —
both unwrapped and with no transport interaction.  Otherwise the timeout
is set to `10000`, `SCDP` is written, the raw reply is read, and the
`finally` clause restores the old timeout on every path; any exception in
the body is re-raised wrapped as
`OscilloscopeError("Screen capture failed")`. -/
def captureScreenOp (env : Env) (s : DriverState) : Res (List ℕ) :=
  if s.hasInstrument then
    if s.instClosed then { state := s, events := [], result := .error .invalidSession }
    else
    let old := s.timeout
    let s1 : DriverState := { s with timeout := 10000 }
    let w := writeOp env s1 "SCDP"
    match w.2 with
    | .error _ =>
      { state := { s1 with timeout := old },
        events := [Event.setTimeoutEv 10000] ++ w.1 ++ [Event.setTimeoutEv old],
        result := .error (.oscError "Screen capture failed") }
    | .ok _ =>
      let r := readRawOp env s1
      match r.2 with
      | .error _ =>
        { state := { s1 with timeout := old },
          events := [Event.setTimeoutEv 10000] ++ w.1 ++ r.1 ++ [Event.setTimeoutEv old],
          result := .error (.oscError "Screen capture failed") }
      | .ok bs =>
        { state := { s1 with timeout := old },
          events := [Event.setTimeoutEv 10000] ++ w.1 ++ r.1 ++ [Event.setTimeoutEv old],
          result := .ok bs }
  else { state := s, events := [], result := .error .attrError }

/-! ## Waveform decoding (driver.py lines 504–547) -/

/-- Does the byte list start with the given pattern? -/
def natsStartWith : List ℕ → List ℕ → Bool
  | [], _ => true
  | _ :: _, [] => false
  | p :: ps, b :: bs => p = b && natsStartWith ps bs

/-- First index at which the pattern occurs in the byte list (model of
`bytes.find` restricted to present/absent, cf. `b'#9' in raw_data`). -/
def findSub (pat : List ℕ) : List ℕ → Option ℕ
  | [] => if pat.isEmpty then some 0 else none
  | b :: bs =>
    if natsStartWith pat (b :: bs) then some 0
    else (findSub pat bs).map (· + 1)

/-- Signed 8-bit reinterpretation of a byte (`np.frombuffer(..., dtype=np.int8)`). -/
def byteToInt8 (b : ℕ) : ℤ :=
  if b % 256 < 128 then (b % 256 : ℤ) else (b % 256 : ℤ) - 256

/-- Model of `OscilloscopeDriver._parse_waveform_data`.  The binary block is
located via the `#9` marker (byte values 35, 57) in a reply that must start
with `C` (byte 67); the 9 ASCII digits after the marker give the payload
byte count; each payload byte is reinterpreted as int8 and scaled by
(1/25) × the volts-per-division obtained from a fresh `C1:VDIV?` query
(the reply's second whitespace token run through `_parse_measurement`).
Every failure path — missing marker, non-digit count, failed query, missing
second token (`IndexError`), unparseable volts-per-division (`TypeError` on
`array * None`) — yields the empty sample list without raising. -/
def parseWaveformDataOp (env : Env) (s : DriverState) (raw : List ℕ) :
    List Event × List ℚ :=
  if raw.head? = some 67 then
    match findSub [35, 57] raw with
    | none => ([], [])
    | some h =>
      match pyIntOfDigits ((raw.drop (h + 2)).take 9) with
      | none => ([], [])
      | some n =>
        let payload := (raw.drop (h + 11)).take n
        let values := payload.map byteToInt8
        let q := queryOp env s "C1:VDIV?"
        match q.2 with
        | .error _ => (q.1, [])
        | .ok resp =>
          if resp = "" then (q.1, values.map (fun x : ℤ => (x : ℚ) / 25 * 1))
          else
            match pySplitWS resp with
            | _ :: tok :: _ =>
              match parseMeasurement tok with
              | none => (q.1, [])
              | some v => (q.1, values.map (fun x : ℤ => (x : ℚ) / 25 * v))
            | _ => (q.1, [])
  else ([], [])

/-! ## Data model (models.py) and the waveform capture -/

/-- Model of `models.WaveformData` (floats as exact rationals). -/
structure WaveformData where
  channel : ℕ
  num_points : ℕ
  sample_rate : ℚ
  voltage_scale : ℚ
  voltage_offset : ℚ
  time_scale : ℚ
  data_points : List ℚ
  time_points : List ℚ
deriving DecidableEq, Repr

/-- Model of `format_command(tmpl, ch=ch)` for the templates used here: the
single occurrence of the placeholder between braces named `ch` is replaced
by the decimal channel number. -/
def formatCh (tmpl : String) (ch : ℕ) : String :=
  match splitAtPat "{ch}".data tmpl.data with
  | none => tmpl
  | some p => String.mk (p.1 ++ (toString ch).data ++ p.2)

/-- The sparse-mode lookup of `capture_waveform` (driver.py lines 432–439). -/
def sparseModeFor (numPoints : ℕ) : ℕ :=
  if numPoints ≤ 200 then 10
  else if numPoints ≤ 500 then 6
  else if numPoints ≤ 1000 then 4
  else 2

/-- The error message of a failed waveform capture. -/
def wfErrMsg : String := "Waveform capture timeout or error"

/-- The `finally` clause of `capture_waveform`: restore the saved timeout,
then best-effort write `WFSU SP,0,NP,0,FP,0` (its failure is swallowed by
the inner bare `except`). -/
def wfFinally (env : Env) (s : DriverState) (old : ℕ) : DriverState × List Event :=
  let sr : DriverState := { s with timeout := old }
  let w := writeOp env sr "WFSU SP,0,NP,0,FP,0"
  (sr, Event.setTimeoutEv old :: w.1)

/-- Model of `OscilloscopeDriver.capture_waveform` (driver.py lines
412–502).  Reading `self._instrument.timeout` (line 426, before the `try`)
with no instrument raises `AttributeError`, and on a handle whose session
was closed by `disconnect` it raises pyvisa's `InvalidSession`, both
unwrapped and with no transport interaction.
Otherwise: write the sparse-mode setup and `MSIZ 7K`,
raise the timeout to 60000, write the per-channel waveform request, read
the raw block; any failure in this `try` block is wrapped as
`OscilloscopeError` after the `finally` clause runs.  After the block the
raw reply is decoded, `TDIV ?` and `C{ch}:VDIV ?` are queried (failures
here propagate unwrapped), and the `WaveformData` record is built with a
synthesized time axis at the placeholder rate 1e9. -/
def captureWaveformOp (env : Env) (ch : ℕ) (numPoints : ℕ) (s : DriverState) :
    Res WaveformData :=
  if s.hasInstrument then
    if s.instClosed then { state := s, events := [], result := .error .invalidSession }
    else
    let old := s.timeout
    let cmd1 := "WFSU SP," ++ toString (sparseModeFor numPoints) ++ ",NP,0,FP,0"
    let w1 := writeOp env s cmd1
    match w1.2 with
    | .error _ =>
      let f := wfFinally env s old
      { state := f.1, events := w1.1 ++ f.2, result := .error (.oscError wfErrMsg) }
    | .ok _ =>
      let w2 := writeOp env s "MSIZ 7K"
      match w2.2 with
      | .error _ =>
        let f := wfFinally env s old
        { state := f.1, events := w1.1 ++ w2.1 ++ f.2,
          result := .error (.oscError wfErrMsg) }
      | .ok _ =>
        let s1 : DriverState := { s with timeout := 60000 }
        let w3 := writeOp env s1 (formatCh "C{ch}:WF? DAT2" ch)
        match w3.2 with
        | .error _ =>
          let f := wfFinally env s1 old
          { state := f.1,
            events := w1.1 ++ w2.1 ++ [Event.setTimeoutEv 60000] ++ w3.1 ++ f.2,
            result := .error (.oscError wfErrMsg) }
        | .ok _ =>
          let rr := readRawOp env s1
          match rr.2 with
          | .error _ =>
            let f := wfFinally env s1 old
            { state := f.1,
              events := w1.1 ++ w2.1 ++ [Event.setTimeoutEv 60000] ++ w3.1 ++ rr.1 ++ f.2,
              result := .error (.oscError wfErrMsg) }
          | .ok raw =>
            let f := wfFinally env s1 old
            let pre := w1.1 ++ w2.1 ++ [Event.setTimeoutEv 60000] ++ w3.1 ++ rr.1 ++ f.2
            let dp := parseWaveformDataOp env f.1 raw
            let q1 := queryOp env f.1 "TDIV ?"
            match q1.2 with
            | .error e =>
              { state := f.1, events := pre ++ dp.1 ++ q1.1, result := .error e }
            | .ok _ =>
              let q2 := queryOp env f.1 (formatCh "C{ch}:VDIV ?" ch)
              match q2.2 with
              | .error e =>
                { state := f.1, events := pre ++ dp.1 ++ q1.1 ++ q2.1,
                  result := .error e }
              | .ok _ =>
                { state := f.1, events := pre ++ dp.1 ++ q1.1 ++ q2.1,
                  result := .ok {
                    channel := ch,
                    num_points := dp.2.length,
                    sample_rate := 1000000000,
                    voltage_scale := 1,
                    voltage_offset := 0,
                    time_scale := 1,
                    data_points := dp.2,
                    time_points := List.map (fun i : ℕ => (i : ℚ) / 1000000000)
                      (List.range dp.2.length) } }
  else { state := s, events := [], result := .error .attrError }

/-! ## Measurements (models.py `Measurements`, driver.py `measure_channel`) -/

/-- The value of a Python float stored in a `Measurements` field: either an
exact rational, or (for the fallback RMS) the square root of a rational,
kept symbolic so that the whole driver model stays computable. -/
inductive PyFloatVal where
  | rat (q : ℚ)
  | sqrtv (q : ℚ)
deriving DecidableEq, Repr

/-- Real-number meaning of a stored float value. -/
noncomputable def PyFloatVal.toReal : PyFloatVal → ℝ
  | .rat q => (q : ℝ)
  | .sqrtv q => Real.sqrt (q : ℝ)

/-- Model of `models.Measurements`: a channel plus twelve optional scalar
fields, all defaulting to absent. -/
structure Measurements where
  channel : ℕ
  frequency : Option PyFloatVal := none
  period : Option PyFloatVal := none
  peak_to_peak : Option PyFloatVal := none
  amplitude : Option PyFloatVal := none
  maximum : Option PyFloatVal := none
  minimum : Option PyFloatVal := none
  mean : Option PyFloatVal := none
  rms : Option PyFloatVal := none
  rise_time : Option PyFloatVal := none
  fall_time : Option PyFloatVal := none
  positive_width : Option PyFloatVal := none
  negative_width : Option PyFloatVal := none
deriving DecidableEq, Repr

/-- The fresh `Measurements(channel=channel)` record. -/
def emptyMeasurements (ch : ℕ) : Measurements := { channel := ch }

/-- The six attribute names targeted by the PAVA loop of
`measure_channel`. -/
inductive MField where
  | pkpk | ampl | vmax | vmin | vmean | vrms
deriving DecidableEq, Repr

/-- Field lookup on a `Measurements` record (`getattr`). -/
def Measurements.getF (m : Measurements) : MField → Option PyFloatVal
  | .pkpk => m.peak_to_peak
  | .ampl => m.amplitude
  | .vmax => m.maximum
  | .vmin => m.minimum
  | .vmean => m.mean
  | .vrms => m.rms

/-- Field update on a `Measurements` record (`setattr`). -/
def Measurements.setF (m : Measurements) : MField → Option PyFloatVal → Measurements
  | .pkpk, v => { m with peak_to_peak := v }
  | .ampl, v => { m with amplitude := v }
  | .vmax, v => { m with maximum := v }
  | .vmin, v => { m with minimum := v }
  | .vmean, v => { m with mean := v }
  | .vrms, v => { m with rms := v }

/-- The `measurement_funcs` list of `measure_channel` (driver.py lines
286–293): field together with its PAVA command template. -/
def measFuncs : List (MField × String) :=
  [(.pkpk, "C{ch}:PAVA? PKPK"), (.ampl, "C{ch}:PAVA? AMPL"),
   (.vmax, "C{ch}:PAVA? MAX"), (.vmin, "C{ch}:PAVA? MIN"),
   (.vmean, "C{ch}:PAVA? MEAN"), (.vrms, "C{ch}:PAVA? RMS")]

/-- The PAVA loop of `measure_channel` (driver.py lines 296–305): for each
entry, query; on a query exception continue; on a sentinel-bearing reply
(`"****" in result`) do nothing; otherwise store the parsed value (possibly
`None`!) and record that PAVA worked. -/
def pavaLoop (env : Env) (s : DriverState) (ch : ℕ) :
    List (MField × String) → Measurements → Bool → List Event × Measurements × Bool
  | [], m, w => ([], m, w)
  | (f, tmpl) :: rest, m, w =>
    let q := queryOp env s (formatCh tmpl ch)
    match q.2 with
    | .error _ =>
      let r := pavaLoop env s ch rest m w
      (q.1 ++ r.1, r.2)
    | .ok reply =>
      if containsSub "****" reply then
        let r := pavaLoop env s ch rest m w
        (q.1 ++ r.1, r.2)
      else
        let r := pavaLoop env s ch rest
          (m.setF f ((parseMeasurement reply).map PyFloatVal.rat)) true
        (q.1 ++ r.1, r.2)

/-- The frequency step of `measure_channel` (driver.py lines 273–283): a
`CYMOMETER?` query; when the reply carries the `CYMT` tag, its second
whitespace token is parsed into `frequency`, and `period` is set to the
reciprocal when the frequency is present and positive.  Query failures and
the `IndexError` of a tag-only reply are swallowed. -/
def freqStep (env : Env) (s : DriverState) (m : Measurements) :
    List Event × Measurements :=
  let q := queryOp env s "CYMOMETER?"
  match q.2 with
  | .error _ => (q.1, m)
  | .ok reply =>
    if containsSub "CYMT" reply then
      match pySplitWS reply with
      | _ :: fs :: _ =>
        let f := parseMeasurement fs
        let m1 := { m with frequency := f.map PyFloatVal.rat }
        match f with
        | some qv =>
          if 0 < qv then (q.1, { m1 with period := some (.rat (1 / qv)) })
          else (q.1, m1)
        | none => (q.1, m1)
      | _ => (q.1, m)
    else (q.1, m)

/-- Maximum of a nonempty sample list (`np.max`; the `[]` value is never
used because the caller guards on nonemptiness). -/
def listMaxQ : List ℚ → ℚ
  | [] => 0
  | x :: xs => xs.foldl max x

/-- Minimum of a nonempty sample list (`np.min`). -/
def listMinQ : List ℚ → ℚ
  | [] => 0
  | x :: xs => xs.foldl min x

/-- Model of `OscilloscopeDriver.measure_channel` (driver.py lines
268–328): frequency step, PAVA loop, and — when no PAVA query yielded a
non-sentinel reply — a fallback 1000-point waveform capture from whose
samples max, min, peak-to-peak, amplitude, mean and RMS are computed.
Every sub-step is wrapped in `try/except`, so the operation itself always
returns a `Measurements` record. -/
def measureChannelOp (env : Env) (ch : ℕ) (s : DriverState) : Res Measurements :=
  let fq := freqStep env s (emptyMeasurements ch)
  let pl := pavaLoop env s ch measFuncs fq.2 false
  if pl.2.2 then
    { state := s, events := fq.1 ++ pl.1, result := .ok pl.2.1 }
  else
    let cw := captureWaveformOp env ch 1000 s
    match cw.result with
    | .error _ =>
      { state := cw.state, events := fq.1 ++ pl.1 ++ cw.events, result := .ok pl.2.1 }
    | .ok wf =>
      if wf.data_points.isEmpty then
        { state := cw.state, events := fq.1 ++ pl.1 ++ cw.events, result := .ok pl.2.1 }
      else
        let ds := wf.data_points
        let mx := listMaxQ ds
        let mn := listMinQ ds
        { state := cw.state, events := fq.1 ++ pl.1 ++ cw.events,
          result := .ok { pl.2.1 with
            maximum := some (.rat mx),
            minimum := some (.rat mn),
            peak_to_peak := some (.rat (mx - mn)),
            amplitude := some (.rat ((mx - mn) / 2)),
            mean := some (.rat (ds.sum / (ds.length : ℚ))),
            rms := some (.sqrtv ((ds.map (fun x => x * x)).sum / (ds.length : ℚ))) } }

/-! ## Status (models.py config records, driver.py `get_status`) -/

/-- Model of `models.ChannelConfig` (enumerations as their string values). -/
structure ChannelConfig where
  channel : ℕ
  enabled : Bool := true
  voltage_div : String := "1V"
  offset : String := "0V"
  coupling : String := "D1M"
  probe_ratio : ℕ := 1
  bandwidth_limit : Bool := false
deriving DecidableEq, Repr

/-- Model of `models.TimebaseConfig`. -/
structure TimebaseConfig where
  time_div : String := "1MS"
  delay : String := "0S"
  sample_rate : Option String := none
deriving DecidableEq, Repr

/-- Model of `models.TriggerConfig`. -/
structure TriggerConfig where
  source : ℕ := 1
  mode : String := "AUTO"
  trigger_type : String := "EDGE"
  slope : String := "POS"
  level : String := "0V"
  holdoff : Option String := none
deriving DecidableEq, Repr

/-- Model of `models.ScopeStatus`. -/
structure ScopeStatus where
  connected : Bool
  model : String
  serial_number : String
  firmware_version : String
  channels : List ChannelConfig
  timebase : TimebaseConfig
  trigger : TriggerConfig
  acquisition_running : Bool
  memory_depth : Option ℕ := none
deriving DecidableEq, Repr

/-- Model of `OscilloscopeDriver.get_status` (driver.py lines 559–591): one
`*IDN?` query supplies model/serial/firmware (comma-split with "Unknown"
defaults); every other field is a hard-coded constant. -/
def getStatusOp (env : Env) (s : DriverState) :
    List Event × Except PyExc ScopeStatus :=
  let q := queryOp env s "*IDN?"
  match q.2 with
  | .error e => (q.1, .error e)
  | .ok idn =>
    let parts := pySplitChar ',' idn
    (q.1, .ok {
      connected := s.connected,
      model := (parts[1]?).getD "Unknown",
      serial_number := (parts[2]?).getD "Unknown",
      firmware_version := (parts[3]?).getD "Unknown",
      channels := [{ channel := 1 }, { channel := 2 }],
      timebase := {},
      trigger := {},
      acquisition_running := true })

/-! ## Derived specifications used to state per-field independence -/

/-- Did the operation return without raising? -/
def isOkB {α : Type} : Except PyExc α → Bool
  | .ok _ => true
  | .error _ => false

/-- Did one PAVA query step yield a usable (non-error, non-sentinel)
reply? -/
def stepOk (env : Env) (s : DriverState) (ch : ℕ) (tmpl : String) : Bool :=
  match (queryOp env s (formatCh tmpl ch)).2 with
  | .error _ => false
  | .ok r => !containsSub "****" r

/-- The value a single PAVA field ends up with, as a function of that
field's own query alone: absent on a failed query or a sentinel reply,
otherwise the parsed reply. -/
def pavaExpected (env : Env) (s : DriverState) (ch : ℕ) (tmpl : String) :
    Option PyFloatVal :=
  match (queryOp env s (formatCh tmpl ch)).2 with
  | .error _ => none
  | .ok r =>
    if containsSub "****" r then none else (parseMeasurement r).map PyFloatVal.rat

/-- Did at least one of the six PAVA queries yield a usable reply
(`pava_worked`)? -/
def pavaAnyOk (env : Env) (s : DriverState) (ch : ℕ) : Bool :=
  measFuncs.any (fun p => stepOk env s ch p.2)

/-! ## Concrete fixtures used by witnesses and counterexamples -/

/-- A connected driver state with both handles set and a live session. -/
def sConn : DriverState :=
  { connected := true, hasInstrument := true, hasRm := true,
    instClosed := false, timeout := 10000 }

/-- A freshly constructed, never-connected driver state
(`_instrument = None`, `_rm = None`). -/
def sNever : DriverState :=
  { connected := false, hasInstrument := false, hasRm := false,
    instClosed := false, timeout := 0 }

/-- A state after `connect` followed by `disconnect`: the handles survive,
the flag is cleared, and the instrument's session has been closed (so
attribute access on it raises `InvalidSession`). -/
def sDisc : DriverState :=
  { connected := false, hasInstrument := true, hasRm := true,
    instClosed := true, timeout := 10000 }

/-- A state after a `connect` whose `*IDN?` verification failed: the
handles survive with a live session, but the connected flag was rolled
back to `false`. -/
def sConnFail : DriverState :=
  { connected := false, hasInstrument := true, hasRm := true,
    instClosed := false, timeout := 10000 }

/-- A well-formed waveform reply: `C` then the `#9` marker, the nine ASCII
digits `000000002`, and the two int8 payload bytes 25 and 231 (= −25). -/
def rawW : List ℕ := [67, 35, 57, 48, 48, 48, 48, 48, 48, 48, 48, 50, 25, 231]

/-- Instrument environment for the fallback scenario: every PAVA reply (and
the `CYMOMETER?` reply) carries the `****` sentinel, the waveform transfer
succeeds with `rawW`, and channel 1's volts-per-division reads back as 1 V. -/
def envW : Env := {
  openFails := false,
  writeFailsOn := fun _ => false,
  queryFailsOn := fun _ => false,
  readRawFails := false,
  queryReply := fun c =>
    if c = "C1:VDIV?" then "C1:VDIV 1V"
    else if c = "TDIV ?" then "1MS"
    else if c = "C1:VDIV ?" then "1V"
    else "****",
  rawData := rawW }

/-- The waveform record `capture_waveform` produces from `envW`. -/
def wfW : WaveformData := {
  channel := 1, num_points := 2, sample_rate := 1000000000,
  voltage_scale := 1, voltage_offset := 0, time_scale := 1,
  data_points := [1, -1],
  time_points := [0, 1 / 1000000000] }

/-- Environment in which only the `*IDN?` query fails. -/
def envIdnFail : Env := {
  openFails := false,
  writeFailsOn := fun _ => false,
  queryFailsOn := fun c => c == "*IDN?",
  readRawFails := false,
  queryReply := fun _ => "",
  rawData := [] }

/-- Environment for the channel-2 capture counterexample: channel 1 and
channel 2 report different volts-per-division (1 V vs 2 V), and the raw
block carries the single payload byte 50. -/
def envC5 : Env := {
  openFails := false,
  writeFailsOn := fun _ => false,
  queryFailsOn := fun _ => false,
  readRawFails := false,
  queryReply := fun c =>
    if c = "C1:VDIV?" then "C1:VDIV 1V"
    else if c = "C2:VDIV?" then "C2:VDIV 2V"
    else if c = "TDIV ?" then "1MS"
    else if c = "C2:VDIV ?" then "2V"
    else "****",
  rawData := [67, 35, 57, 48, 48, 48, 48, 48, 48, 48, 48, 49, 50] }

/-- Environment for the independence witness: the peak-to-peak query
succeeds with `PKPK,2.5V`, the maximum query raises, and every other reply
carries the sentinel. -/
def envP : Env := {
  openFails := false,
  writeFailsOn := fun _ => false,
  queryFailsOn := fun c => c == "C1:PAVA? MAX",
  readRawFails := false,
  queryReply := fun c => if c = "C1:PAVA? PKPK" then "PKPK,2.5V" else "****",
  rawData := [] }

/-- The status record `get_status` produces from `envW` and `sConn` (the
sentinel identity reply has no commas, so the identity strings default). -/
def stW : ScopeStatus := {
  connected := true, model := "Unknown", serial_number := "Unknown",
  firmware_version := "Unknown",
  channels := [{ channel := 1 }, { channel := 2 }],
  timebase := {}, trigger := {}, acquisition_running := true }

/-! ## Helper lemmas -/

theorem queryOp_not_connected (env : Env) (s : DriverState) (cmd : String)
    (h : s.connected = false) :
    queryOp env s cmd = ([], .error (.oscError notConnectedMsg)) := by
  simp [queryOp, h]

theorem writeOp_not_connected (env : Env) (s : DriverState) (cmd : String)
    (h : s.connected = false) :
    writeOp env s cmd = ([], .error (.oscError notConnectedMsg)) := by
  simp [writeOp, h]

theorem readRawOp_not_connected (env : Env) (s : DriverState)
    (h : s.connected = false) :
    readRawOp env s = ([], .error (.oscError notConnectedMsg)) := by
  simp [readRawOp, h]

/-! ## C1 and C8 -/

section ConcreteEval

attribute [local semireducible] Rat.add Rat.mul Rat.inv Rat.sub

/-- C1: `parseMeasurement` on the spec's known reply formats.  The first
seven evaluations confirm the claimed values; the last one evaluates the
code at the claim's remaining input `"500MV"`: the code strips the `V`,
then treats the trailing `M` as the SI prefix mega (×1e6) and returns
5·10⁸, whereas the claim — and the repository's own test
`test_parse_measurement` — require 0.5 (milli).  This is the code-bug
evaluation for claim C1. -/
theorem C1_parse_measurement_eval :
    parseMeasurement "C1:PAVA FREQ,1.5KHZ" = some 1500 ∧
    parseMeasurement "C1:PAVA PKPK,2.5V" = some (5 / 2) ∧
    parseMeasurement "1.5MHZ" = some 1500000 ∧
    parseMeasurement "C1:PAVA AMPL,****" = none ∧
    parseMeasurement "****" = none ∧
    parseMeasurement "" = none ∧
    parseMeasurement "ABC" = none ∧
    parseMeasurement "500MV" = some 500000000 ∧ ¬ ((500000000 : ℚ) = 1 / 2) := by
  decide

end ConcreteEval

/-- C8: `disconnect` never raises, always leaves the state disconnected,
and calling it again immediately (including on a never-connected driver,
since the statement quantifies over every state) again does not raise and
leaves the state disconnected. -/
theorem C8_disconnect_idempotent (s : DriverState) :
    (disconnectOp s).result = .ok () ∧
    (disconnectOp s).state.connected = false ∧
    (disconnectOp (disconnectOp s).state).result = .ok () ∧
    (disconnectOp (disconnectOp s).state).state.connected = false :=
  ⟨rfl, rfl, rfl, rfl⟩

/-- C10: `get_status` returns fixed constants for channels, timebase,
trigger and the acquisition flag; only model/serial/firmware (from the
comma-split `*IDN?` reply) and the connected flag reflect actual state, and
the trace holds exactly the one identity query. -/
theorem C10_get_status_constants (env : Env) (s : DriverState)
    (st : ScopeStatus) (evs : List Event)
    (h : getStatusOp env s = (evs, .ok st)) :
    st.channels = [{ channel := 1 }, { channel := 2 }] ∧
    st.timebase = { time_div := "1MS", delay := "0S" } ∧
    st.trigger = { source := 1, mode := "AUTO" } ∧
    st.acquisition_running = true ∧
    st.connected = s.connected ∧
    st.model = ((pySplitChar ',' (strTrim (env.queryReply "*IDN?")))[1]?).getD "Unknown" ∧
    st.serial_number = ((pySplitChar ',' (strTrim (env.queryReply "*IDN?")))[2]?).getD "Unknown" ∧
    st.firmware_version = ((pySplitChar ',' (strTrim (env.queryReply "*IDN?")))[3]?).getD "Unknown" ∧
    evs = [Event.queryEv "*IDN?"] := by
  by_cases hc : (s.connected && s.hasInstrument) = true
  · by_cases hf : env.queryFailsOn "*IDN?" = true
    · simp [getStatusOp, queryOp, hc, hf] at h
    · simp only [getStatusOp, queryOp, hc, if_true, hf, Bool.false_eq_true, if_false,
        Bool.not_eq_true] at h
      injection h with he hok
      injection hok with hst
      subst he
      subst hst
      exact ⟨rfl, rfl, rfl, rfl, rfl, rfl, rfl, rfl, rfl⟩
  · simp [getStatusOp, queryOp, hc] at h


/-- C6: `connect` records the connected flag being set to `true` strictly
before the `*IDN?` verification query is issued, and when the transport
open or that query fails, `connect` raises the connection
`OscilloscopeError` and leaves the connected flag `false`. -/
theorem C6_connect_flag_before_verify (env : Env) (s : DriverState) (t : ℕ) :
    ((env.openFails = true ∨ env.queryFailsOn "*IDN?" = true) →
      (connectOp env s t).result = .error (.oscError "Connection failed") ∧
      (connectOp env s t).state.connected = false) ∧
    (Event.queryEv "*IDN?" ∈ (connectOp env s t).events →
      ∃ pre post, (connectOp env s t).events =
        pre ++ Event.setConnectedEv true :: Event.queryEv "*IDN?" :: post) := by
  by_cases ho : env.openFails = true
  · constructor
    · intro _
      constructor <;> simp [connectOp, ho]
    · intro hmem
      simp [connectOp, ho] at hmem
  · by_cases hq : env.queryFailsOn "*IDN?" = true
    · constructor
      · intro _
        constructor <;> simp [connectOp, queryOp, ho, hq]
      · intro _
        exact ⟨[Event.setTimeoutEv t], [], by simp [connectOp, queryOp, ho, hq]⟩
    · constructor
      · rintro (h | h)
        · exact absurd h ho
        · exact absurd h hq
      · intro _
        exact ⟨[Event.setTimeoutEv t], [], by simp [connectOp, queryOp, ho, hq]⟩

/-- C7: `capture_screen` and `capture_waveform` leave the driver state —
in particular the transport timeout — exactly as they found it on every
exit path, and whenever an instrument handle with a live session exists
(the only states in which the `try` body runs at all) the trace shows the
temporary timeout raise and the restoring assignment of the prior value. -/
theorem C7_scoped_timeout (env : Env) (s : DriverState) (ch n : ℕ) :
    (captureScreenOp env s).state = s ∧
    (captureWaveformOp env ch n s).state = s ∧
    (s.hasInstrument = true → s.instClosed = false →
      Event.setTimeoutEv 10000 ∈ (captureScreenOp env s).events ∧
      Event.setTimeoutEv s.timeout ∈ (captureScreenOp env s).events ∧
      Event.setTimeoutEv s.timeout ∈ (captureWaveformOp env ch n s).events) := by
  refine ⟨?_, ?_, ?_⟩
  · unfold captureScreenOp
    dsimp only
    repeat' split <;> try rfl
  · unfold captureWaveformOp wfFinally
    dsimp only
    repeat' split <;> try rfl
  · intro hi hc
    have hc2 : ¬ (s.instClosed = true) := by simp [hc]
    refine ⟨?_, ?_, ?_⟩
    · unfold captureScreenOp
      rw [if_pos hi, if_neg hc2]
      dsimp only
      repeat' split <;> simp
    · unfold captureScreenOp
      rw [if_pos hi, if_neg hc2]
      dsimp only
      repeat' split <;> simp
    · unfold captureWaveformOp wfFinally
      rw [if_pos hi, if_neg hc2]
      dsimp only
      repeat' split <;> try simp

/-- C9: every `WaveformData` produced by `capture_waveform` satisfies
`len(data_points) == len(time_points) == num_points`. -/
theorem C9_capture_lengths (env : Env) (ch n : ℕ) (s : DriverState)
    (wf : WaveformData)
    (h : (captureWaveformOp env ch n s).result = .ok wf) :
    wf.data_points.length = wf.time_points.length ∧
    wf.num_points = wf.data_points.length := by
  unfold captureWaveformOp at h
  dsimp only at h
  split at h
  · repeat' split at h
    all_goals (try dsimp only at h)
    all_goals injection h
    rename_i hwf
    subst hwf
    exact ⟨by simp only [List.length_map, List.length_range], rfl⟩
  · exact absurd h (by simp)

/-- C3 (amended): `write`, `query` and `read_raw` invoked while
disconnected raise the not-connected `OscilloscopeError` and perform no
transport interaction; `capture_screen` and `capture_waveform` do not —
they access `self._instrument.timeout` before any connected check, so on a
never-connected driver (`_instrument = None`) they raise `AttributeError`,
and after `disconnect` has closed the session they raise pyvisa's
`InvalidSession`, in both cases unwrapped and with no transport
interaction; only in the remaining disconnected state (a failed `connect`
verification leaving an open handle) do they set and restore the transport
timeout and raise the wrapped capture error — in no disconnected state do
they raise the not-connected error. -/
theorem C3_disconnected_behaviour (env : Env) (s : DriverState) (cmd : String)
    (ch n : ℕ) (h : s.connected = false) :
    writeOp env s cmd = ([], .error (.oscError notConnectedMsg)) ∧
    queryOp env s cmd = ([], .error (.oscError notConnectedMsg)) ∧
    readRawOp env s = ([], .error (.oscError notConnectedMsg)) ∧
    (s.hasInstrument = false →
      captureScreenOp env s = { state := s, events := [], result := .error .attrError } ∧
      captureWaveformOp env ch n s = { state := s, events := [], result := .error .attrError }) ∧
    (s.hasInstrument = true → s.instClosed = true →
      captureScreenOp env s =
        { state := s, events := [], result := .error .invalidSession } ∧
      captureWaveformOp env ch n s =
        { state := s, events := [], result := .error .invalidSession }) ∧
    (s.hasInstrument = true → s.instClosed = false →
      (captureScreenOp env s).result = .error (.oscError "Screen capture failed") ∧
      (captureScreenOp env s).events =
        [Event.setTimeoutEv 10000, Event.setTimeoutEv s.timeout] ∧
      (captureWaveformOp env ch n s).result = .error (.oscError wfErrMsg) ∧
      (captureWaveformOp env ch n s).events = [Event.setTimeoutEv s.timeout]) := by
  refine ⟨writeOp_not_connected env s cmd h, queryOp_not_connected env s cmd h,
    readRawOp_not_connected env s h, ?_, ?_, ?_⟩
  · intro hi
    constructor
    · simp [captureScreenOp, hi]
    · simp [captureWaveformOp, hi]
  · intro hi hc
    constructor
    · simp [captureScreenOp, hi, hc]
    · simp [captureWaveformOp, hi, hc]
  · intro hi hc
    refine ⟨?_, ?_, ?_, ?_⟩ <;>
      simp [captureScreenOp, captureWaveformOp, wfFinally, writeOp, h, hi, hc]

/-- C3 counterexample: on a never-connected driver, `capture_screen`
raises `AttributeError`, not the claimed `NotConnectedError`. -/
theorem C3_counterexample :
    sNever.connected = false ∧
    (captureScreenOp envW sNever).result = .error .attrError ∧
    PyExc.attrError ≠ PyExc.oscError notConnectedMsg :=
  ⟨rfl, rfl, by decide⟩

/-- C5 (amended): for a well-formed `C…#9<count><payload>` reply, decoding
yields, elementwise, payload-int8/25 × the volts-per-division parsed from a
fresh `C1:VDIV?` reply — always channel 1's scale, regardless of which
channel was captured — and a reply without the `#9` marker decodes to the
empty sample list without raising. -/
theorem C5_waveform_decode (env : Env) (s : DriverState) (raw : List ℕ)
    (h9 n : ℕ) (t0 t1 : String) (ts : List String) (v : ℚ)
    (hC : raw.head? = some 67)
    (hfind : findSub [35, 57] raw = some h9)
    (hcount : pyIntOfDigits ((raw.drop (h9 + 2)).take 9) = some n)
    (hlen : ((raw.drop (h9 + 11)).take n).length = n)
    (hconn : s.connected = true) (hinst : s.hasInstrument = true)
    (hqok : env.queryFailsOn "C1:VDIV?" = false)
    (htok : pySplitWS (strTrim (env.queryReply "C1:VDIV?")) = t0 :: t1 :: ts)
    (hv : parseMeasurement t1 = some v) :
    parseWaveformDataOp env s raw =
      ([Event.queryEv "C1:VDIV?"],
        ((raw.drop (h9 + 11)).take n).map (fun b => (byteToInt8 b : ℚ) / 25 * v)) ∧
    (∀ raw2 : List ℕ, findSub [35, 57] raw2 = none →
      parseWaveformDataOp env s raw2 = ([], [])) := by
  constructor
  · have hne : ¬ (strTrim (env.queryReply "C1:VDIV?") = "") := by
      intro he
      rw [he] at htok
      simp [pySplitWS, wsTokensAux] at htok
    unfold parseWaveformDataOp
    rw [if_pos hC, hfind]
    dsimp only
    rw [hcount]
    dsimp only
    rw [queryOp, if_pos (by simp [hconn, hinst]), if_neg (by simp [hqok])]
    dsimp only
    rw [if_neg hne, htok]
    dsimp only
    rw [hv]
    simp only [List.map_map]
    rfl
  · intro raw2 hnone
    unfold parseWaveformDataOp
    by_cases hc2 : raw2.head? = some 67
    · rw [if_pos hc2, hnone]
    · rw [if_neg hc2]


theorem emptyMeasurements_getF (ch : ℕ) (f : MField) :
    (emptyMeasurements ch).getF f = none := by
  cases f <;> rfl

theorem getF_setF_same (m : Measurements) (f : MField) (v : Option PyFloatVal) :
    (m.setF f v).getF f = v := by
  cases f <;> rfl

theorem getF_setF_ne (m : Measurements) (f g : MField) (v : Option PyFloatVal)
    (h : ¬ g = f) : (m.setF g v).getF f = m.getF f := by
  cases f <;> cases g <;> first | rfl | exact absurd rfl h

theorem freqStep_getF (env : Env) (s : DriverState) (m : Measurements) (f : MField) :
    ((freqStep env s m).2).getF f = m.getF f := by
  unfold freqStep
  dsimp only
  rcases hq : (queryOp env s "CYMOMETER?").2 with e | r
  · simp only [hq]
  · simp only [hq]
    by_cases ht : containsSub "CYMT" r = true
    · rw [if_pos ht]
      rcases hsp : pySplitWS r with _ | ⟨t0, rest⟩
      · rfl
      · rcases rest with _ | ⟨t1, ts⟩
        · rfl
        · dsimp only
          rcases hp : parseMeasurement t1 with _ | qv
          · cases f <;> rfl
          · dsimp only
            by_cases hq0 : 0 < qv
            · rw [if_pos hq0]
              cases f <;> rfl
            · rw [if_neg hq0]
              cases f <;> rfl
    · rw [if_neg ht]

theorem pavaLoop_skip (env : Env) (s : DriverState) (ch : ℕ) :
    ∀ (l : List (MField × String)) (m : Measurements) (w : Bool),
      (∀ p ∈ l, stepOk env s ch p.2 = false) →
      (pavaLoop env s ch l m w).2 = (m, w) := by
  intro l
  induction l with
  | nil => intro m w _; rfl
  | cons p rest ih =>
    intro m w h
    obtain ⟨f, tmpl⟩ := p
    have hp := h (f, tmpl) (List.mem_cons_self _ _)
    have hrest : ∀ q ∈ rest, stepOk env s ch q.2 = false :=
      fun q hq => h q (List.mem_cons_of_mem _ hq)
    unfold pavaLoop
    dsimp only
    rcases hq : (queryOp env s (formatCh tmpl ch)).2 with e | r
    · simp only [hq]
      exact ih m w hrest
    · simp only [hq]
      have hs : containsSub "****" r = true := by
        unfold stepOk at hp
        rw [hq] at hp
        simpa using hp
      rw [if_pos hs]
      exact ih m w hrest

theorem pavaLoop_worked (env : Env) (s : DriverState) (ch : ℕ) :
    ∀ (l : List (MField × String)) (m : Measurements) (w : Bool),
      (pavaLoop env s ch l m w).2.2 = (w || l.any (fun p => stepOk env s ch p.2)) := by
  intro l
  induction l with
  | nil => intro m w; simp [pavaLoop]
  | cons p rest ih =>
    intro m w
    obtain ⟨f, tmpl⟩ := p
    have hstep : stepOk env s ch tmpl =
        match (queryOp env s (formatCh tmpl ch)).2 with
        | .error _ => false
        | .ok r => !containsSub "****" r := rfl
    unfold pavaLoop
    dsimp only
    rcases hq : (queryOp env s (formatCh tmpl ch)).2 with e | r
    · rw [hq] at hstep
      dsimp only at hstep
      simp only [hq]
      rw [ih m w]
      simp [List.any_cons, hstep]
    · rw [hq] at hstep
      dsimp only at hstep
      by_cases hs : containsSub "****" r = true
      · simp only [hq]
        rw [if_pos hs]
        rw [ih m w]
        simp [List.any_cons, hstep, hs]
      · simp only [hq]
        rw [if_neg hs]
        rw [ih _ true]
        have hs2 : containsSub "****" r = false := by simpa using hs
        simp [List.any_cons, hstep, hs2]

theorem pavaLoop_getF_of_not_mem (env : Env) (s : DriverState) (ch : ℕ) (f : MField) :
    ∀ (l : List (MField × String)) (m : Measurements) (w : Bool),
      f ∉ l.map Prod.fst →
      ((pavaLoop env s ch l m w).2.1).getF f = m.getF f := by
  intro l
  induction l with
  | nil => intro m w _; rfl
  | cons p rest ih =>
    intro m w h
    obtain ⟨g, tmpl⟩ := p
    have hgf : ¬ g = f := by
      intro hgf
      exact h (by simp [hgf])
    have hrest : f ∉ rest.map Prod.fst := by
      intro hf
      exact h (by simp [hf])
    unfold pavaLoop
    dsimp only
    rcases hq : (queryOp env s (formatCh tmpl ch)).2 with e | r
    · simp only [hq]
      exact ih m w hrest
    · simp only [hq]
      by_cases hs : containsSub "****" r = true
      · rw [if_pos hs]
        exact ih m w hrest
      · rw [if_neg hs]
        rw [ih _ true hrest]
        exact getF_setF_ne m f g _ hgf

theorem pavaLoop_getF_of_mem (env : Env) (s : DriverState) (ch : ℕ) :
    ∀ (l : List (MField × String)) (m : Measurements) (w : Bool) (f : MField)
      (tmpl : String),
      (l.map Prod.fst).Nodup → (f, tmpl) ∈ l → m.getF f = none →
      ((pavaLoop env s ch l m w).2.1).getF f = pavaExpected env s ch tmpl := by
  intro l
  induction l with
  | nil =>
    intro m w f tmpl _ hmem
    exact absurd hmem (List.not_mem_nil _)
  | cons p rest ih =>
    intro m w f tmpl hnd hmem hnone
    obtain ⟨g, t⟩ := p
    have hmapped : (g :: rest.map Prod.fst).Nodup := by
      rw [List.map_cons] at hnd
      exact hnd
    have hgrest : g ∉ rest.map Prod.fst := (List.nodup_cons.mp hmapped).1
    have hndrest : (rest.map Prod.fst).Nodup := (List.nodup_cons.mp hmapped).2
    rcases List.mem_cons.mp hmem with heq | hmem2
    · rw [Prod.mk.injEq] at heq
      obtain ⟨hf, ht⟩ := heq
      subst hf
      subst ht
      unfold pavaLoop
      dsimp only
      rcases hq : (queryOp env s (formatCh tmpl ch)).2 with e | r
      · simp only [hq]
        rw [pavaLoop_getF_of_not_mem env s ch f rest m w hgrest, hnone]
        unfold pavaExpected
        rw [hq]
      · simp only [hq]
        by_cases hs : containsSub "****" r = true
        · rw [if_pos hs]
          rw [pavaLoop_getF_of_not_mem env s ch f rest m w hgrest, hnone]
          unfold pavaExpected
          rw [hq]
          dsimp only
          rw [if_pos hs]
        · rw [if_neg hs]
          rw [pavaLoop_getF_of_not_mem env s ch f rest _ true hgrest]
          rw [getF_setF_same]
          unfold pavaExpected
          rw [hq]
          dsimp only
          rw [if_neg hs]
    · have hgf : ¬ g = f := by
        intro hgf
        apply hgrest
        rw [hgf]
        exact List.mem_map.mpr ⟨(f, tmpl), hmem2, rfl⟩
      unfold pavaLoop
      dsimp only
      rcases hq : (queryOp env s (formatCh t ch)).2 with e | r
      · simp only [hq]
        exact ih m w f tmpl hndrest hmem2 hnone
      · simp only [hq]
        by_cases hs : containsSub "****" r = true
        · rw [if_pos hs]
          exact ih m w f tmpl hndrest hmem2 hnone
        · rw [if_neg hs]
          refine ih _ true f tmpl hndrest hmem2 ?_
          rw [getF_setF_ne m f g _ hgf]
          exact hnone

theorem freqStep_disconnected (env : Env) (s : DriverState) (m : Measurements)
    (h : s.connected = false) : freqStep env s m = ([], m) := by
  unfold freqStep
  rw [queryOp_not_connected env s _ h]

theorem pavaLoop_disconnected (env : Env) (s : DriverState) (ch : ℕ)
    (h : s.connected = false) :
    ∀ (l : List (MField × String)) (m : Measurements) (w : Bool),
      pavaLoop env s ch l m w = ([], m, w) := by
  intro l
  induction l with
  | nil => intro m w; rfl
  | cons p rest ih =>
    intro m w
    obtain ⟨f, tmpl⟩ := p
    unfold pavaLoop
    rw [queryOp_not_connected env s _ h]
    dsimp only
    rw [ih]
    rfl

theorem captureWaveformOp_disconnected (env : Env) (ch n : ℕ) (s : DriverState)
    (h : s.connected = false) :
    ∃ e, (captureWaveformOp env ch n s).result = .error e := by
  by_cases hi : s.hasInstrument = true
  · by_cases hc : s.instClosed = true
    · exact ⟨.invalidSession, by simp [captureWaveformOp, hi, hc]⟩
    · refine ⟨.oscError wfErrMsg, ?_⟩
      simp [captureWaveformOp, wfFinally, writeOp, h, hi, hc]
  · refine ⟨.attrError, ?_⟩
    have hi2 : s.hasInstrument = false := by simpa using hi
    simp [captureWaveformOp, hi2]

theorem measureChannelOp_isOk (env : Env) (ch : ℕ) (s : DriverState) :
    isOkB (measureChannelOp env ch s).result = true := by
  unfold measureChannelOp
  dsimp only
  repeat' split
  all_goals rfl

theorem foldl_max_le (l : List ℚ) : ∀ a : ℚ, a ≤ l.foldl max a := by
  induction l with
  | nil => intro a; exact le_refl a
  | cons x xs ih =>
    intro a
    exact le_trans (le_max_left a x) (ih (max a x))

theorem foldl_max_mem (l : List ℚ) : ∀ a, l.foldl max a = a ∨ l.foldl max a ∈ l := by
  induction l with
  | nil => intro a; exact Or.inl rfl
  | cons x xs ih =>
    intro a
    rcases ih (max a x) with hx | hx
    · rcases max_choice a x with hm | hm
      · exact Or.inl (by rw [List.foldl_cons, hx, hm])
      · exact Or.inr (by rw [List.foldl_cons, hx, hm]; exact List.mem_cons_self x xs)
    · exact Or.inr (List.mem_cons_of_mem x hx)

theorem foldl_max_ub (l : List ℚ) : ∀ (a x : ℚ), x ∈ l → x ≤ l.foldl max a := by
  induction l with
  | nil => intro a x hx; exact absurd hx (List.not_mem_nil x)
  | cons y ys ih =>
    intro a x hx
    rcases List.mem_cons.mp hx with rfl | hx2
    · exact le_trans (le_max_right a x) (foldl_max_le ys (max a x))
    · exact ih (max a y) x hx2

theorem listMaxQ_mem (l : List ℚ) (h : l ≠ []) : listMaxQ l ∈ l := by
  cases l with
  | nil => exact absurd rfl h
  | cons x xs =>
    rcases foldl_max_mem xs x with hx | hx
    · rw [listMaxQ, hx]; exact List.mem_cons_self x xs
    · exact List.mem_cons_of_mem x hx

theorem listMaxQ_ub (l : List ℚ) (x : ℚ) (hx : x ∈ l) : x ≤ listMaxQ l := by
  cases l with
  | nil => exact absurd hx (List.not_mem_nil x)
  | cons y ys =>
    rcases List.mem_cons.mp hx with rfl | hx2
    · exact foldl_max_le ys x
    · exact foldl_max_ub ys y x hx2

theorem foldl_min_le (l : List ℚ) : ∀ a : ℚ, l.foldl min a ≤ a := by
  induction l with
  | nil => intro a; exact le_refl a
  | cons x xs ih =>
    intro a
    exact le_trans (ih (min a x)) (min_le_left a x)

theorem foldl_min_mem (l : List ℚ) : ∀ a, l.foldl min a = a ∨ l.foldl min a ∈ l := by
  induction l with
  | nil => intro a; exact Or.inl rfl
  | cons x xs ih =>
    intro a
    rcases ih (min a x) with hx | hx
    · rcases min_choice a x with hm | hm
      · exact Or.inl (by rw [List.foldl_cons, hx, hm])
      · exact Or.inr (by rw [List.foldl_cons, hx, hm]; exact List.mem_cons_self x xs)
    · exact Or.inr (List.mem_cons_of_mem x hx)

theorem foldl_min_lb (l : List ℚ) : ∀ (a x : ℚ), x ∈ l → l.foldl min a ≤ x := by
  induction l with
  | nil => intro a x hx; exact absurd hx (List.not_mem_nil x)
  | cons y ys ih =>
    intro a x hx
    rcases List.mem_cons.mp hx with rfl | hx2
    · exact le_trans (foldl_min_le ys (min a x)) (min_le_right a x)
    · exact ih (min a y) x hx2

theorem listMinQ_mem (l : List ℚ) (h : l ≠ []) : listMinQ l ∈ l := by
  cases l with
  | nil => exact absurd rfl h
  | cons x xs =>
    rcases foldl_min_mem xs x with hx | hx
    · rw [listMinQ, hx]; exact List.mem_cons_self x xs
    · exact List.mem_cons_of_mem x hx

theorem listMinQ_lb (l : List ℚ) (x : ℚ) (hx : x ∈ l) : listMinQ l ≤ x := by
  cases l with
  | nil => exact absurd hx (List.not_mem_nil x)
  | cons y ys =>
    rcases List.mem_cons.mp hx with rfl | hx2
    · exact foldl_min_le ys x
    · exact foldl_min_lb ys y x hx2

/-- C2 (amended): `measure_channel` never raises — its result is a
`Measurements` record for every environment and state; in particular a
disconnected driver does not raise but returns the record with every
measurement field absent (the claim's "only being disconnected raises" is
refuted by `C2_counterexample`).  The queries are attempted independently:
whenever at least one PAVA query yields a usable reply (so the waveform
fallback is not taken), each of the six fields equals the outcome of its
own query alone — absent on a failed query or sentinel reply, the parsed
value otherwise — regardless of the other queries' failures. -/
theorem C2_measure_independent_never_raises (env : Env) (ch : ℕ) (s : DriverState) :
    isOkB (measureChannelOp env ch s).result = true ∧
    (s.connected = false →
      (measureChannelOp env ch s).result = .ok (emptyMeasurements ch)) ∧
    (pavaAnyOk env s ch = true →
      ∃ m, (measureChannelOp env ch s).result = .ok m ∧
        ∀ p ∈ measFuncs, m.getF p.1 = pavaExpected env s ch p.2) := by
  refine ⟨measureChannelOp_isOk env ch s, ?_, ?_⟩
  · intro h
    obtain ⟨e, he⟩ := captureWaveformOp_disconnected env ch 1000 s h
    unfold measureChannelOp
    dsimp only
    rw [freqStep_disconnected env s _ h]
    dsimp only
    rw [pavaLoop_disconnected env s ch h]
    dsimp only
    rw [if_neg Bool.false_ne_true, he]
  · intro h
    have hw : (pavaLoop env s ch measFuncs
        (freqStep env s (emptyMeasurements ch)).2 false).2.2 = true := by
      rw [pavaLoop_worked]
      simpa [pavaAnyOk] using h
    unfold measureChannelOp
    dsimp only
    rw [if_pos hw]
    refine ⟨_, rfl, ?_⟩
    intro p hp
    obtain ⟨f, tmpl⟩ := p
    refine pavaLoop_getF_of_mem env s ch measFuncs _ false f tmpl (by decide) hp ?_
    rw [freqStep_getF]
    exact emptyMeasurements_getF ch f

/-- C4: when all six PAVA queries return the sentinel and the fallback
1000-point waveform capture succeeds with a nonempty sample list, the six
statistics fields are computed from the samples: maximum is the numeric
maximum of the samples (a sample that bounds all samples from above),
minimum the numeric minimum, peak-to-peak = maximum − minimum, amplitude =
peak-to-peak / 2, mean = the arithmetic mean, and RMS = the square root of
the mean of the squared samples. -/
theorem C4_fallback_statistics (env : Env) (s : DriverState) (ch : ℕ)
    (wf : WaveformData)
    (hsent : ∀ p ∈ measFuncs,
      (queryOp env s (formatCh p.2 ch)).2 =
        .ok (strTrim (env.queryReply (formatCh p.2 ch))) ∧
      containsSub "****" (strTrim (env.queryReply (formatCh p.2 ch))) = true)
    (hcap : (captureWaveformOp env ch 1000 s).result = .ok wf)
    (hne : wf.data_points ≠ []) :
    ∃ m mx mn, (measureChannelOp env ch s).result = .ok m ∧
      m.maximum = some (.rat mx) ∧ mx ∈ wf.data_points ∧
        (∀ x ∈ wf.data_points, x ≤ mx) ∧
      m.minimum = some (.rat mn) ∧ mn ∈ wf.data_points ∧
        (∀ x ∈ wf.data_points, mn ≤ x) ∧
      m.peak_to_peak = some (.rat (mx - mn)) ∧
      m.amplitude = some (.rat ((mx - mn) / 2)) ∧
      m.mean = some (.rat (wf.data_points.sum / (wf.data_points.length : ℚ))) ∧
      ∃ v, m.rms = some v ∧
        v.toReal = Real.sqrt
          (((wf.data_points.map (fun x => x * x)).sum /
            (wf.data_points.length : ℚ) : ℚ)) := by
  have hskip : ∀ p ∈ measFuncs, stepOk env s ch p.2 = false := by
    intro p hp
    obtain ⟨hq, hs⟩ := hsent p hp
    unfold stepOk
    rw [hq]
    simp [hs]
  have hl := pavaLoop_skip env s ch measFuncs
    (freqStep env s (emptyMeasurements ch)).2 false hskip
  have hemp : wf.data_points.isEmpty = false := by
    cases hl2 : wf.data_points with
    | nil => exact absurd hl2 hne
    | cons x xs => rfl
  unfold measureChannelOp
  dsimp only
  rw [hl]
  dsimp only
  rw [if_neg Bool.false_ne_true, hcap]
  dsimp only
  rw [hemp]
  rw [if_neg Bool.false_ne_true]
  refine ⟨_, listMaxQ wf.data_points, listMinQ wf.data_points, rfl,
    rfl, listMaxQ_mem wf.data_points hne,
    (fun x hx => listMaxQ_ub wf.data_points x hx),
    rfl, listMinQ_mem wf.data_points hne,
    (fun x hx => listMinQ_lb wf.data_points x hx),
    rfl, rfl, rfl, ⟨.sqrtv _, rfl, rfl⟩⟩

section ConcreteEval2

attribute [local semireducible] Rat.add Rat.mul Rat.inv Rat.sub

/-- C5 counterexample: capturing channel 2 with channel 1's scale at 1 V and
channel 2's scale at 2 V: the code decodes the payload byte 50 to 2 V
(channel 1's scale), while the claim — payload/25 × the captured channel's
volts-per-division (2 V, parsing to 2) — demands 4 V. -/
theorem C5_counterexample :
    Except.map WaveformData.data_points (captureWaveformOp envC5 2 1000 sConn).result =
      .ok [(2 : ℚ)] ∧
    pySplitWS (strTrim (envC5.queryReply "C2:VDIV?")) = ["C2:VDIV", "2V"] ∧
    parseMeasurement "2V" = some 2 ∧
    ((byteToInt8 50 : ℚ) / 25 * 2 = 4) ∧ ((2 : ℚ) ≠ 4) := by
  refine ⟨by decide, by decide, by decide, by decide, by decide⟩

/-- Witness for C5 on the concrete block `rawW`: marker at index 1, count 2,
payload `[25, 231]`, channel-1 scale 1 V. -/
theorem C5_witness :
    rawW.head? = some 67 ∧
    parseWaveformDataOp envW sConn rawW =
      ([Event.queryEv "C1:VDIV?"],
        ((rawW.drop (1 + 11)).take 2).map (fun b => (byteToInt8 b : ℚ) / 25 * 1)) :=
  ⟨by decide,
    (C5_waveform_decode envW sConn rawW 1 2 "C1:VDIV" "1V" [] 1 (by decide) (by decide)
      (by decide) (by decide) rfl rfl (by decide) (by decide) (by decide)).1⟩

/-- Witness for C3 on the two disconnected-with-handle states: after
`disconnect` (closed session — `InvalidSession`, no events) and after a
failed `connect` verification (live session — wrapped capture error). -/
theorem C3_witness :
    sDisc.connected = false ∧
    writeOp envW sDisc "*IDN?" = ([], .error (.oscError notConnectedMsg)) ∧
    captureScreenOp envW sDisc =
      { state := sDisc, events := [], result := .error .invalidSession } ∧
    sConnFail.connected = false ∧
    (captureScreenOp envW sConnFail).result = .error (.oscError "Screen capture failed") :=
  ⟨rfl, (C3_disconnected_behaviour envW sDisc "*IDN?" 1 1000 rfl).1,
    ((C3_disconnected_behaviour envW sDisc "*IDN?" 1 1000 rfl).2.2.2.2.1 rfl rfl).1,
    rfl,
    ((C3_disconnected_behaviour envW sConnFail "*IDN?" 1 1000 rfl).2.2.2.2.2 rfl rfl).1⟩

/-- Witness for C6: a failing `*IDN?` verification leaves the driver
disconnected and raises the connection error. -/
theorem C6_witness :
    (envIdnFail.openFails = true ∨ envIdnFail.queryFailsOn "*IDN?" = true) ∧
    ((connectOp envIdnFail sNever 10000).result = .error (.oscError "Connection failed") ∧
     (connectOp envIdnFail sNever 10000).state.connected = false) :=
  ⟨Or.inr (by decide),
    (C6_connect_flag_before_verify envIdnFail sNever 10000).1 (Or.inr (by decide))⟩

/-- Witness for C7 on a connected driver: state (and so the timeout) is
restored and the temporary timeout raise is visible in the trace. -/
theorem C7_witness :
    sConn.hasInstrument = true ∧ sConn.instClosed = false ∧
    (captureScreenOp envW sConn).state = sConn ∧
    (captureWaveformOp envW 1 1000 sConn).state = sConn ∧
    Event.setTimeoutEv 10000 ∈ (captureScreenOp envW sConn).events :=
  ⟨rfl, rfl, (C7_scoped_timeout envW sConn 1 1000).1,
    (C7_scoped_timeout envW sConn 1 1000).2.1,
    ((C7_scoped_timeout envW sConn 1 1000).2.2 rfl rfl).1⟩

/-- Witness for C9 on the concrete environment `envW`. -/
theorem C9_witness :
    (captureWaveformOp envW 1 1000 sConn).result = .ok wfW ∧
    (wfW.data_points.length = wfW.time_points.length ∧
     wfW.num_points = wfW.data_points.length) :=
  ⟨by decide, C9_capture_lengths envW 1 1000 sConn wfW (by decide)⟩

/-- Witness for C10 on the concrete environment `envW`. -/
theorem C10_witness :
    getStatusOp envW sConn = ([Event.queryEv "*IDN?"], .ok stW) ∧
    stW.acquisition_running = true ∧ stW.connected = sConn.connected :=
  ⟨by decide,
    (C10_get_status_constants envW sConn stW [Event.queryEv "*IDN?"] (by decide)).2.2.2.1,
    (C10_get_status_constants envW sConn stW [Event.queryEv "*IDN?"] (by decide)).2.2.2.2.1⟩

/-- C2 counterexample: on a never-connected driver, `measure_channel` does
not raise — every query failure is swallowed and the record with only the
channel set is returned — contradicting the claim that being disconnected
makes `measure_channel` raise. -/
theorem C2_counterexample :
    sNever.connected = false ∧
    (measureChannelOp envW 1 sNever).result = .ok (emptyMeasurements 1) :=
  ⟨rfl, by decide⟩

/-- Witness for C2 in an environment where the peak-to-peak query succeeds
(`PKPK,2.5V`), the maximum query raises, and the other replies are
sentinels. -/
theorem C2_witness :
    pavaAnyOk envP sConn 1 = true ∧
    (∃ m, (measureChannelOp envP 1 sConn).result = .ok m ∧
      ∀ p ∈ measFuncs, m.getF p.1 = pavaExpected envP sConn 1 p.2) :=
  ⟨by decide, (C2_measure_independent_never_raises envP 1 sConn).2.2 (by decide)⟩

/-- Witness for C4 on `envW`: every PAVA reply is the sentinel and the
fallback capture decodes the samples `[1, −1]`. -/
theorem C4_witness :
    (∀ p ∈ measFuncs,
      (queryOp envW sConn (formatCh p.2 1)).2 =
        .ok (strTrim (envW.queryReply (formatCh p.2 1))) ∧
      containsSub "****" (strTrim (envW.queryReply (formatCh p.2 1))) = true) ∧
    (∃ m mx mn, (measureChannelOp envW 1 sConn).result = .ok m ∧
      m.maximum = some (.rat mx) ∧ mx ∈ wfW.data_points ∧
        (∀ x ∈ wfW.data_points, x ≤ mx) ∧
      m.minimum = some (.rat mn) ∧ mn ∈ wfW.data_points ∧
        (∀ x ∈ wfW.data_points, mn ≤ x) ∧
      m.peak_to_peak = some (.rat (mx - mn)) ∧
      m.amplitude = some (.rat ((mx - mn) / 2)) ∧
      m.mean = some (.rat (wfW.data_points.sum / (wfW.data_points.length : ℚ))) ∧
      ∃ v, m.rms = some v ∧
        v.toReal = Real.sqrt
          (((wfW.data_points.map (fun x => x * x)).sum /
            (wfW.data_points.length : ℚ) : ℚ))) :=
  ⟨by decide, C4_fallback_statistics envW sConn 1 wfW (by decide) (by decide) (by decide)⟩

end ConcreteEval2

end ScopeDriver
